import Mathlib

/-!
A shallow embedding of `src/map-view.ts` (the `MapView` Bases view of the
`mapple` Obsidian plugin) together with proofs about its behaviour.

The pure helpers (`readCoords`, `getMimeType`, `arrayBufferToBase64`) are
translated directly.  The stateful view class is embedded as a state record
`MapViewState` with the class methods as state transformers; the host
application, the vault file system and the browser image decoder are an
explicit environment record `Env`.  JavaScript numbers produced by the
`Number()` builtin are modelled by `JsNum` (a rational value, an infinity, or
NaN).
-/

/-- A JavaScript number as produced by `Number(string)`: NaN, a signed
infinity, or a finite value (modelled as a rational). -/
inductive JsNum where
  | nan : JsNum
  | inf (neg : Bool) : JsNum
  | val (q : ℚ) : JsNum
deriving DecidableEq, Repr

/-- JavaScript whitespace characters recognised by `String.prototype.trim`
and by `Number()` (the common ASCII subset). -/
def jsWhitespaceChar (c : Char) : Bool :=
  c = ' ' || c = '\t' || c = '\n' || c = '\r' || c = '\x0b' || c = '\x0c'

/-- Model of JavaScript `String.prototype.trim`: strip whitespace from both
ends. -/
def jsTrim (s : String) : String :=
  String.mk (((s.data.dropWhile jsWhitespaceChar).reverse.dropWhile
    jsWhitespaceChar).reverse)

/-- Model of JavaScript `String.prototype.split` with a one-character
separator: splitting never yields an empty list, and separators at the ends
produce empty fields, exactly as in JS. -/
def splitCh (sep : Char) : List Char → List (List Char)
  | [] => [[]]
  | c :: cs =>
    if c = sep then [] :: splitCh sep cs
    else (c :: (splitCh sep cs).headD []) :: (splitCh sep cs).tail

/-- Decimal digit test used by the `Number()` model. -/
def isDigitCh (c : Char) : Bool := '0' ≤ c && c ≤ '9'

/-- Numeric value of a digit list (most significant first). -/
def digitsVal (ds : List Char) : ℕ :=
  ds.foldl (fun acc c => 10 * acc + (c.toNat - '0'.toNat)) 0

/-- Parse an unsigned decimal literal `digits* ('.' digits*)? (('e'|'E')
sign? digits+)?` requiring at least one digit in the mantissa; returns its
exact rational value, or `none` when the characters are not of this form. -/
def parseUnsignedDec (cs : List Char) : Option ℚ :=
  let intPart := cs.takeWhile isDigitCh
  let rest1 := cs.dropWhile isDigitCh
  let fracAndRest : List Char × List Char :=
    match rest1 with
    | '.' :: t => (t.takeWhile isDigitCh, t.dropWhile isDigitCh)
    | _ => ([], rest1)
  let fracPart := fracAndRest.1
  let rest2 := fracAndRest.2
  let hasDot : Bool := match rest1 with | '.' :: _ => true | _ => false
  if intPart.isEmpty && (!hasDot || fracPart.isEmpty) then none
  else
    let mantissa : ℚ :=
      (digitsVal intPart : ℚ) + (digitsVal fracPart : ℚ) / (10 ^ fracPart.length : ℚ)
    match rest2 with
    | [] => some mantissa
    | e :: t =>
      if e = 'e' || e = 'E' then
        let signAndDigits : Bool × List Char :=
          match t with
          | '-' :: u => (true, u)
          | '+' :: u => (false, u)
          | _ => (false, t)
        let expNeg := signAndDigits.1
        let expDigits := signAndDigits.2
        if expDigits.isEmpty || !(expDigits.all isDigitCh) then none
        else
          let ex : ℚ := (10 ^ digitsVal expDigits : ℚ)
          some (if expNeg then mantissa / ex else mantissa * ex)
      else none

/-- Model of the JavaScript `Number()` builtin on the forms this plugin can
meet: whitespace is trimmed, the empty string is `0`, an optional sign
precedes either `Infinity` or a decimal literal with optional fraction and
exponent; anything else is NaN.  (Hex/octal/binary literals are outside the
model.) -/
def jsNumber (s : String) : JsNum :=
  let cs := (jsTrim s).data
  match cs with
  | [] => .val 0
  | _ =>
    let signAndBody : Bool × List Char :=
      match cs with
      | '-' :: t => (true, t)
      | '+' :: t => (false, t)
      | _ => (false, cs)
    let neg := signAndBody.1
    let body := signAndBody.2
    if body = "Infinity".data then .inf neg
    else
      match parseUnsignedDec body with
      | some q => .val (if neg then -q else q)
      | none => .nan

/-- Embedding of `readCoords` (src/map-view.ts:333-335):
`c.split(',').map((n)=>(Number(n)))`.  The TS return type annotates a pair,
but the value is whatever array the split produced. -/
def readCoords (c : String) : List JsNum :=
  (splitCh ',' c.data).map (fun t => jsNumber (String.mk t))

/-- Embedding of `getMimeType` (src/map-view.ts:317-330): the extension table
and the `|| 'image/png'` default. -/
def mimeTypes : List (String × String) :=
  [("png", "image/png"), ("jpg", "image/jpeg"), ("jpeg", "image/jpeg"),
   ("gif", "image/gif"), ("bmp", "image/bmp"), ("webp", "image/webp"),
   ("svg", "image/svg+xml"), ("tiff", "image/tiff"), ("tif", "image/tiff")]

def getMimeType (extension : String) : String :=
  match mimeTypes.lookup extension with
  | some m => m
  | none => "image/png"

/-- Pixel dimensions derived from a decoded image
(`loadImageDimensions`, src/map-view.ts:195-211). -/
structure ImageDimensions where
  width : ℕ
  height : ℕ
  aspectRatio : ℚ
deriving DecidableEq, Repr

/-- Leaflet `LatLngBoundsExpression` as used here: two corner points.  The
only bounds this view builds are `[[0,0],[height,width]]`, so corners are
naturals. -/
abbrev Bounds := (ℕ × ℕ) × (ℕ × ℕ)

/-- A Leaflet image-overlay handle: the data URL it displays and the bounds
it was created with. -/
structure Overlay where
  url : String
  bounds : Bounds
deriving DecidableEq, Repr

/-- A Leaflet marker handle: an allocation identity and the position it was
created with.  `pos = none` models `L.marker(null)`, which the code can
produce because `extractCoordinates`'s null result is not guarded. -/
structure Marker where
  id : ℕ
  pos : Option (List JsNum)
deriving DecidableEq, Repr

/-- One Bases row: the linked file's path/name, and the property lookup.
`getValue p = none` models both a thrown lookup and a null value (either way
`value.toString()` inside the `try` fails and the `catch` runs). -/
structure BasesEntry where
  filePath : String
  fileName : String
  getValue : String → Option String

/-- The host configuration read by `loadConfig`: the `coordinates` property
binding and the `mapImage` option (`none` when unset or not a truthy
string). -/
structure Config where
  coordinates : Option String
  mapImage : Option String

/-- The external world: the vault (`getFileByPath` + `readBinary`, where
`some (.error ())` is a file whose binary read throws), the browser `btoa`
builtin, the browser image decoder (`none` = decode error), the host config
and the current row set (`none` models `this.data` unset). -/
structure Env where
  vault : String → Option (Except Unit (List ℕ))
  btoa : String → String
  decodeImage : String → Option (ℕ × ℕ)
  config : Config
  data : Option (List BasesEntry)

/-- The mutable fields of `MapView` together with the observable Leaflet map
state: which marker ids and overlays are on the map, and the last bounds
passed to `fitBounds`. -/
structure MapViewState where
  mapMarkerIds : List ℕ
  overlayLayers : List Overlay
  fitted : Option Bounds
  localImageData : Option String
  imageDimensions : Option ImageDimensions
  localImagePath : String
  imageOverlay : Option Overlay
  markers : List Marker
  coordinatesProp : Option String
  nextId : ℕ

namespace MapViewState

/-- Field values established by the `MapView` constructor
(src/map-view.ts:28-81): empty marker list, no image state, no overlay. -/
def init : MapViewState :=
  { mapMarkerIds := [], overlayLayers := [], fitted := none,
    localImageData := none, imageDimensions := none, localImagePath := "",
    imageOverlay := none, markers := [], coordinatesProp := none,
    nextId := 0 }

end MapViewState

namespace MapView

/-- Embedding of `extractCoordinates` (src/map-view.ts:213-226): `null`
without a configured property; `null` when the lookup fails; otherwise
`readCoords` of the trimmed string value. -/
def extractCoordinates (s : MapViewState) (entry : BasesEntry) :
    Option (List JsNum) :=
  match s.coordinatesProp with
  | none => none
  | some p =>
    match entry.getValue p with
    | none => none
    | some v => some (readCoords (jsTrim v))

/-- The marker-creating loop body of `updateMarkers`
(src/map-view.ts:87-102), iterated over the row set: each row yields a fresh
marker at the extracted position (null or not), pushed onto `this.markers`
and added to the map. -/
def addMarkersForEntries (s : MapViewState) :
    List BasesEntry → MapViewState
  | [] => s
  | e :: rest =>
    let c := extractCoordinates s e
    let m : Marker := ⟨s.nextId, c⟩
    addMarkersForEntries
      { s with markers := s.markers ++ [m],
               mapMarkerIds := s.mapMarkerIds ++ [m.id],
               nextId := s.nextId + 1 } rest

/-- Embedding of `updateMarkers` (src/map-view.ts:83-103): remove every
marker in `this.markers` from the map (the array itself is not cleared),
return early when the row set or the coordinates property is missing,
otherwise run the marker loop. -/
def updateMarkers (env : Env) (s : MapViewState) : MapViewState :=
  let s0 := { s with
    mapMarkerIds :=
      s.mapMarkerIds.filter (fun i => !(s.markers.any (fun m => m.id = i))) }
  match env.data with
  | none => s0
  | some entries =>
    match s0.coordinatesProp with
    | none => s0
    | some _ => addMarkersForEntries s0 entries

/-- Embedding of `clearImageOverlay` (src/map-view.ts:130-135). -/
def clearImageOverlay (s : MapViewState) : MapViewState :=
  match s.imageOverlay with
  | none => s
  | some ov =>
    { s with overlayLayers := s.overlayLayers.erase ov, imageOverlay := none }

/-- Embedding of `updateImageOverlay` (src/map-view.ts:137-154): remove the
existing overlay, then, when both image data and dimensions are present,
install an overlay with bounds `[[0,0],[height,width]]` and fit the map to
those bounds. -/
def updateImageOverlay (s : MapViewState) : MapViewState :=
  let s1 := clearImageOverlay s
  match s1.localImageData, s1.imageDimensions with
  | some url, some dims =>
    let bounds : Bounds := ((0, 0), (dims.height, dims.width))
    let ov : Overlay := ⟨url, bounds⟩
    { s1 with imageOverlay := some ov,
              overlayLayers := s1.overlayLayers ++ [ov],
              fitted := some bounds }
  | _, _ => s1

/-- Embedding of `arrayBufferToBase64` (src/map-view.ts:306-314):
`String.fromCharCode` over the bytes, then the browser `btoa` builtin (taken
from the environment). -/
def arrayBufferToBase64 (env : Env) (bytes : List ℕ) : String :=
  env.btoa (String.mk (bytes.map (fun b => Char.ofNat (b % 256))))

/-- The extension computation of `loadImage` (src/map-view.ts:175):
`imagePath.split('.').pop()?.toLowerCase()` (split never yields an empty
array, so `pop` is the last field). -/
def extOf (path : String) : String :=
  String.mk (((splitCh '.' path.data).getLastD []).map Char.toLower)

/-- The data URL built by `loadImage` (src/map-view.ts:172-178). -/
def dataUrlOf (env : Env) (path : String) (bytes : List ℕ) : String :=
  "data:" ++ getMimeType (extOf path) ++ ";base64," ++
    arrayBufferToBase64 env bytes

/-- Embedding of `loadImage` (src/map-view.ts:156-192), instrumented with
the number of `readBinary` calls it performs.  Missing file: data and
dimensions nulled, nothing else touched.  Read or decode failure: the
`catch` nulls data and dimensions.  Success: data, dimensions and path set,
then `updateImageOverlay`. -/
def loadImageT (env : Env) (imagePath : String) (s : MapViewState) :
    MapViewState × ℕ :=
  if imagePath = "" ∨ imagePath = s.localImagePath then (s, 0)
  else
    match env.vault imagePath with
    | none => ({ s with localImageData := none, imageDimensions := none }, 0)
    | some (.error _) =>
      ({ s with localImageData := none, imageDimensions := none }, 1)
    | some (.ok bytes) =>
      let url := dataUrlOf env imagePath bytes
      match env.decodeImage url with
      | none =>
        ({ s with localImageData := none, imageDimensions := none }, 1)
      | some (w, h) =>
        (updateImageOverlay
          { s with localImageData := some url,
                   imageDimensions := some ⟨w, h, (w : ℚ) / (h : ℚ)⟩,
                   localImagePath := imagePath }, 1)

def loadImage (env : Env) (imagePath : String) (s : MapViewState) :
    MapViewState :=
  (loadImageT env imagePath s).1

/-- The trimmed `mapImage` option value computed by `loadConfig`
(src/map-view.ts:111-114). -/
def cfgPath (env : Env) : String :=
  match env.config.mapImage with
  | some str => jsTrim str
  | none => ""

/-- Embedding of `loadConfig` (src/map-view.ts:105-128), instrumented with
the number of `readBinary` calls: set the coordinates property, then reload
or clear the image only when the trimmed path differs from
`localImagePath`. -/
def loadConfigT (env : Env) (s : MapViewState) : MapViewState × ℕ :=
  let s1 := { s with coordinatesProp := env.config.coordinates }
  let newPath := cfgPath env
  if newPath ≠ s1.localImagePath then
    if newPath ≠ "" then
      loadImageT env newPath s1
    else
      (clearImageOverlay
        { s1 with localImagePath := "", localImageData := none,
                  imageDimensions := none }, 0)
  else (s1, 0)

def loadConfig (env : Env) (s : MapViewState) : MapViewState :=
  (loadConfigT env s).1

/-- Embedding of `onDataUpdated` (src/map-view.ts:38-42): reload the
configuration, then resynchronise the markers. -/
def onDataUpdated (env : Env) (s : MapViewState) : MapViewState :=
  updateMarkers env (loadConfig env s)

end MapView

/-! ### Concrete environments and states used as inputs below -/

/-- A row whose `coordinates` property holds the (non-numeric) string
`"x"`: the lookup resolves, so the row counts as having a resolvable
coordinate property. -/
def entryGood : BasesEntry := ⟨"note.md", "note", fun _ => some "x"⟩

/-- A row whose property lookup fails (`getValue` throws or yields null). -/
def entryBad : BasesEntry := ⟨"bad.md", "bad", fun _ => none⟩

/-- Environment for the marker claims: a configured `coordinates` binding,
no map image, and a single well-behaved row. -/
def envOneGoodRow : Env :=
  { vault := fun _ => none, btoa := id, decodeImage := fun _ => none,
    config := { coordinates := some "coords", mapImage := none },
    data := some [entryGood] }

/-- Environment with a single row whose coordinate lookup fails. -/
def envOneBadRow : Env :=
  { vault := fun _ => none, btoa := id, decodeImage := fun _ => none,
    config := { coordinates := some "coords", mapImage := none },
    data := some [entryBad] }

/-- An environment whose vault has no files at all and whose config holds no
image path. -/
def envNoFiles : Env :=
  { vault := fun _ => none, btoa := id, decodeImage := fun _ => none,
    config := { coordinates := none, mapImage := none }, data := none }

/-- An environment in which only `a.png` exists and every data URL decodes
to a 2x3 image. -/
def envOnlyA : Env :=
  { vault := fun p => if p = "a.png" then some (.ok [1]) else none,
    btoa := fun _ => "QQ==", decodeImage := fun _ => some (2, 3),
    config := { coordinates := none, mapImage := none }, data := none }

/-- An environment in which `bad.png` exists and is configured as the map
image, but its bytes never decode as an image. -/
def envBadDecode : Env :=
  { vault := fun p => if p = "bad.png" then some (.ok [0]) else none,
    btoa := fun _ => "AA==", decodeImage := fun _ => none,
    config := { coordinates := none, mapImage := some "bad.png" },
    data := none }

/-- The overlay produced by a successful 2x3 load of `a.png`. -/
def ovA : Overlay := ⟨"data:image/png;base64,QQ==", ((0, 0), (3, 2))⟩

/-- A view state in which `a.png` has been loaded successfully and its
overlay is installed on the map. -/
def stWithOverlay : MapViewState :=
  { MapViewState.init with
    localImagePath := "a.png",
    localImageData := some "data:image/png;base64,QQ==",
    imageDimensions := some ⟨2, 3, (2 : ℚ) / 3⟩,
    imageOverlay := some ovA, overlayLayers := [ovA],
    fitted := some ((0, 0), (3, 2)) }

/-! ### Lemmas about the split model -/

theorem splitCh_ne_nil (sep : Char) (cs : List Char) : splitCh sep cs ≠ [] := by
  cases cs with
  | nil => simp [splitCh]
  | cons c t => by_cases hc : c = sep <;> simp [splitCh, hc]

theorem splitCh_not_mem (sep : Char) (a : List Char) (h : sep ∉ a) :
    splitCh sep a = [a] := by
  induction a with
  | nil => rfl
  | cons c t ih =>
    simp only [List.mem_cons, not_or] at h
    simp [splitCh, Ne.symm h.1, ih h.2]

theorem splitCh_append (sep : Char) (a b : List Char) (h : sep ∉ a) :
    splitCh sep (a ++ sep :: b) = a :: splitCh sep b := by
  induction a with
  | nil => simp [splitCh]
  | cons c t ih =>
    simp only [List.mem_cons, not_or] at h
    simp [splitCh, Ne.symm h.1, ih h.2]

theorem splitCh_length (sep : Char) (cs : List Char) :
    (splitCh sep cs).length = cs.count sep + 1 := by
  induction cs with
  | nil => rfl
  | cons c t ih =>
    rcases h : splitCh sep t with _ | ⟨u, us⟩
    · exact absurd h (splitCh_ne_nil sep t)
    · rw [h] at ih
      by_cases hc : c = sep <;>
        simp [splitCh, hc, List.count_cons, h, ← ih]

/-! ### C7-C9: the coordinate parser -/

/-- C7: for every input of the form `"number,number"` (two comma-free tokens
that `Number()` parses to finite values), `readCoords` returns exactly the
two-element pair of those values. -/
theorem readCoords_number_pair (t1 t2 : List Char) (q1 q2 : ℚ)
    (h1 : ',' ∉ t1) (h2 : ',' ∉ t2)
    (hq1 : jsNumber (String.mk t1) = .val q1)
    (hq2 : jsNumber (String.mk t2) = .val q2) :
    readCoords (String.mk (t1 ++ ',' :: t2)) = [.val q1, .val q2] := by
  unfold readCoords
  show ((splitCh ',' (t1 ++ ',' :: t2)).map fun t => jsNumber (String.mk t)) = _
  rw [splitCh_append ',' t1 t2 h1, splitCh_not_mem ',' t2 h2]
  simp [hq1, hq2]

/-- Witness for C7 at `"12.5,-3"`. -/
theorem readCoords_number_pair_witness :
    readCoords "12.5,-3" =
      [.val ((12 : ℚ) + 5 / 10 ^ 1), .val (-((3 : ℚ) + 0 / 10 ^ 0))] :=
  readCoords_number_pair "12.5".data "-3".data _ _
    (by decide) (by decide) rfl rfl

/-- C8: a comma-separated token that `Number()` does not parse yields `NaN`
at that token's position in the result of `readCoords`; it is not an
error. -/
theorem readCoords_nan_at_bad_token (s : String) (i : ℕ) (t : List Char)
    (ht : (splitCh ',' s.data)[i]? = some t)
    (hnan : jsNumber (String.mk t) = .nan) :
    (readCoords s)[i]? = some .nan := by
  unfold readCoords
  rw [List.getElem?_map, ht]
  simp [hnan]

/-- Witness for C8 at `"a,5"`, position 0. -/
theorem readCoords_nan_at_bad_token_witness :
    (readCoords "a,5")[0]? = some .nan :=
  readCoords_nan_at_bad_token "a,5" 0 "a".data (by decide) (by decide)

/-- C9: `readCoords` never enforces an arity of two: the returned array has
exactly one element per comma-separated token (comma count plus one). -/
theorem readCoords_length_eq_token_count (s : String) :
    (readCoords s).length = s.data.count ',' + 1 := by
  unfold readCoords
  rw [List.length_map, splitCh_length]

/-! ### C10: MIME type inference -/

theorem lookup_eq_none_of_not_key (e : String) :
    ∀ l : List (String × String), (∀ p ∈ l, e ≠ p.1) → l.lookup e = none := by
  intro l
  induction l with
  | nil => intro _; rfl
  | cons p t ih =>
    intro h
    obtain ⟨k, v⟩ := p
    have hne : e ≠ k := h (k, v) (List.mem_cons_self (k, v) t)
    have hbeq : (e == k) = false := beq_eq_false_iff_ne.mpr hne
    simp only [List.lookup, hbeq]
    exact ih fun q hq => h q (List.mem_cons_of_mem _ hq)

/-- C10 counterexample: the extension `tif` lies outside the claim's
recognised set yet `getMimeType` maps it to `image/tiff`, not the claimed
`image/png` default. -/
theorem getMimeType_tif_counterexample :
    getMimeType "tif" = "image/tiff" ∧
    "tif" ∉ ["png", "jpg", "jpeg", "gif", "bmp", "webp", "svg", "tiff"] ∧
    getMimeType "tif" ≠ "image/png" := by
  refine ⟨rfl, ?_, ?_⟩ <;> decide

/-- C10 as amended: the recognised extensions are
png/jpg/jpeg/gif/bmp/webp/svg/tiff together with `tif`; each maps to its
table entry, and every extension outside the table defaults to
`image/png`. -/
theorem getMimeType_table_with_default :
    (∀ e : String,
      e ∉ ["png", "jpg", "jpeg", "gif", "bmp", "webp", "svg", "tiff", "tif"] →
      getMimeType e = "image/png") ∧
    getMimeType "png" = "image/png" ∧ getMimeType "jpg" = "image/jpeg" ∧
    getMimeType "jpeg" = "image/jpeg" ∧ getMimeType "gif" = "image/gif" ∧
    getMimeType "bmp" = "image/bmp" ∧ getMimeType "webp" = "image/webp" ∧
    getMimeType "svg" = "image/svg+xml" ∧ getMimeType "tiff" = "image/tiff" ∧
    getMimeType "tif" = "image/tiff" := by
  refine ⟨?_, rfl, rfl, rfl, rfl, rfl, rfl, rfl, rfl, rfl⟩
  intro e he
  simp only [List.mem_cons, List.not_mem_nil, or_false, not_or] at he
  obtain ⟨h1, h2, h3, h4, h5, h6, h7, h8, h9⟩ := he
  unfold getMimeType
  rw [lookup_eq_none_of_not_key e mimeTypes]
  intro p hp
  simp only [mimeTypes, List.mem_cons, List.not_mem_nil, or_false] at hp
  rcases hp with h | h | h | h | h | h | h | h | h <;>
    simp [h, h1, h2, h3, h4, h5, h6, h7, h8, h9]

/-- Witness for the amended C10 at the unrecognised extension `"heic"`. -/
theorem getMimeType_table_with_default_witness :
    getMimeType "heic" = "image/png" :=
  getMimeType_table_with_default.1 "heic" (by decide)

/-! ### C1-C2: marker synchronisation -/

/-- C1 (claim contradicted by the code): two identical data updates with one
resolvable row leave TWO tracked markers, the first update's marker among
them — `updateMarkers` removes markers from the map but never resets the
`markers` array, so the claimed "fully discarded and rebuilt" tracking
invariant fails. -/
theorem updateMarkers_leftover_markers :
    (MapView.onDataUpdated envOneGoodRow MapViewState.init).markers.length
      = 1 ∧
    (MapView.onDataUpdated envOneGoodRow
      (MapView.onDataUpdated envOneGoodRow MapViewState.init)).markers.length
      = 2 ∧
    (MapView.onDataUpdated envOneGoodRow
      (MapView.onDataUpdated envOneGoodRow MapViewState.init)).markers.take 1
      = (MapView.onDataUpdated envOneGoodRow MapViewState.init).markers :=
  ⟨rfl, rfl, rfl⟩

/-- C2 (claim contradicted by the code): for a row whose coordinate lookup
fails, `extractCoordinates` does return null, but `updateMarkers` does not
skip the row — it constructs a marker from the null position and adds it to
the map. -/
theorem updateMarkers_null_not_skipped :
    MapView.extractCoordinates
      { MapViewState.init with coordinatesProp := some "coords" } entryBad
      = none ∧
    (MapView.onDataUpdated envOneBadRow MapViewState.init).markers
      = [⟨0, none⟩] ∧
    (MapView.onDataUpdated envOneBadRow MapViewState.init).mapMarkerIds
      = [0] :=
  ⟨rfl, rfl, rfl⟩

/-! ### C3: missing image file -/

/-- C3 counterexample: with an overlay installed for `a.png`, a `loadImage`
of the missing `b.png` leaves the old overlay installed on the map (and the
handle in place) — the claimed removal does not happen. -/
theorem loadImage_missing_keeps_overlay_cex :
    (MapView.loadImage envNoFiles "b.png" stWithOverlay).imageOverlay
      = some ovA ∧
    (MapView.loadImage envNoFiles "b.png" stWithOverlay).overlayLayers
      = [ovA] ∧
    (MapView.loadImage envNoFiles "b.png" stWithOverlay).localImageData
      = none :=
  ⟨rfl, rfl, rfl⟩

/-- C3 as amended: for a configured image path that resolves to no file,
`loadImage` (a total function — it does not throw) nulls the data URL and
the dimensions and changes nothing else: no new overlay is installed, and a
previously installed overlay is left on the map rather than removed. -/
theorem loadImage_missing_clears_data_only (env : Env) (p : String)
    (s : MapViewState) (hfile : env.vault p = none) (hne : p ≠ "")
    (hch : p ≠ s.localImagePath) :
    MapView.loadImage env p s =
      { s with localImageData := none, imageDimensions := none } := by
  unfold MapView.loadImage MapView.loadImageT
  rw [if_neg (by simp [hne, hch]), hfile]

/-- Witness for the amended C3: loading missing `b.png` over the `a.png`
state. -/
theorem loadImage_missing_clears_data_only_witness :
    MapView.loadImage envNoFiles "b.png" stWithOverlay =
      { stWithOverlay with localImageData := none, imageDimensions := none } :=
  loadImage_missing_clears_data_only envNoFiles "b.png" stWithOverlay rfl
    (by decide) (by decide)

/-! ### C4: image-state consistency -/

theorem clearImageOverlay_localImagePath (s : MapViewState) :
    (MapView.clearImageOverlay s).localImagePath = s.localImagePath := by
  cases hov : s.imageOverlay <;> simp [MapView.clearImageOverlay, hov]

theorem clearImageOverlay_localImageData (s : MapViewState) :
    (MapView.clearImageOverlay s).localImageData = s.localImageData := by
  cases hov : s.imageOverlay <;> simp [MapView.clearImageOverlay, hov]

theorem clearImageOverlay_imageDimensions (s : MapViewState) :
    (MapView.clearImageOverlay s).imageDimensions = s.imageDimensions := by
  cases hov : s.imageOverlay <;> simp [MapView.clearImageOverlay, hov]

theorem clearImageOverlay_coordinatesProp (s : MapViewState) :
    (MapView.clearImageOverlay s).coordinatesProp = s.coordinatesProp := by
  cases hov : s.imageOverlay <;> simp [MapView.clearImageOverlay, hov]

/-- C4 counterexample: after a successful load of `a.png`, a failed load of
the missing `b.png` nulls the data URL yet leaves the path string at
`"a.png"` — the three image-state fields are not reset together and end up
mutually inconsistent. -/
theorem imageState_inconsistent_after_failure_cex :
    (MapView.loadImage envOnlyA "a.png" MapViewState.init).localImagePath
      = "a.png" ∧
    (MapView.loadImage envOnlyA "b.png"
      (MapView.loadImage envOnlyA "a.png" MapViewState.init)).localImagePath
      = "a.png" ∧
    (MapView.loadImage envOnlyA "b.png"
      (MapView.loadImage envOnlyA "a.png" MapViewState.init)).localImageData
      = none :=
  ⟨rfl, rfl, rfl⟩

/-- C4 as amended: on any failed image load (missing file, read error, or
decode error) only the data URL and the dimensions are nulled, together,
while the path string keeps its previous value; on a path clear through
`loadConfig` all three fields are reset together. -/
theorem imageState_failure_and_clear (env : Env) (p : String)
    (s : MapViewState) :
    (p ≠ "" → p ≠ s.localImagePath →
      (env.vault p = none ∨ env.vault p = some (.error ()) ∨
        (∃ b, env.vault p = some (.ok b) ∧
          env.decodeImage (MapView.dataUrlOf env p b) = none)) →
      (MapView.loadImage env p s).localImageData = none ∧
      (MapView.loadImage env p s).imageDimensions = none ∧
      (MapView.loadImage env p s).localImagePath = s.localImagePath) ∧
    (MapView.cfgPath env = "" → s.localImagePath ≠ "" →
      (MapView.loadConfig env s).localImagePath = "" ∧
      (MapView.loadConfig env s).localImageData = none ∧
      (MapView.loadConfig env s).imageDimensions = none) := by
  constructor
  · intro hne hch hfail
    unfold MapView.loadImage MapView.loadImageT
    rw [if_neg (by simp [hne, hch])]
    rcases hfail with hv | hv | ⟨b, hv, hd⟩
    · simp [hv]
    · simp [hv]
    · simp [hv, hd]
  · intro hcfg hpath
    unfold MapView.loadConfig MapView.loadConfigT
    rw [hcfg, if_pos (by simpa using Ne.symm hpath), if_neg (by simp)]
    simp [clearImageOverlay_localImagePath, clearImageOverlay_localImageData,
      clearImageOverlay_imageDimensions]

/-- Witness for the amended C4: failed load of missing `b.png` over the
loaded `a.png` state, and a path clear from that same state. -/
theorem imageState_failure_and_clear_witness :
    ((MapView.loadImage envNoFiles "b.png" stWithOverlay).localImageData
        = none ∧
      (MapView.loadImage envNoFiles "b.png" stWithOverlay).imageDimensions
        = none ∧
      (MapView.loadImage envNoFiles "b.png" stWithOverlay).localImagePath
        = stWithOverlay.localImagePath) ∧
    ((MapView.loadConfig envNoFiles stWithOverlay).localImagePath = "" ∧
      (MapView.loadConfig envNoFiles stWithOverlay).localImageData = none ∧
      (MapView.loadConfig envNoFiles stWithOverlay).imageDimensions
        = none) :=
  ⟨(imageState_failure_and_clear envNoFiles "b.png" stWithOverlay).1
      (by decide) (by decide) (Or.inl rfl),
    (imageState_failure_and_clear envNoFiles "b.png" stWithOverlay).2
      rfl (by decide)⟩

/-! ### C5: successful load installs correctly bounded overlay -/

/-- C5: a successful image load of pixel width `w` and height `h` installs
an overlay with bounds `[[0,0],[h,w]]`, fits the viewport to exactly those
bounds, and removes the previously installed overlay first (the new overlay
list is the cleared list plus the new overlay). -/
theorem loadImage_success_bounds (env : Env) (p : String) (s : MapViewState)
    (bytes : List ℕ) (w h : ℕ) (hne : p ≠ "") (hch : p ≠ s.localImagePath)
    (hfile : env.vault p = some (.ok bytes))
    (hdec : env.decodeImage (MapView.dataUrlOf env p bytes) = some (w, h)) :
    (MapView.loadImage env p s).imageOverlay =
      some ⟨MapView.dataUrlOf env p bytes, ((0, 0), (h, w))⟩ ∧
    (MapView.loadImage env p s).fitted = some ((0, 0), (h, w)) ∧
    (MapView.loadImage env p s).overlayLayers =
      (MapView.clearImageOverlay s).overlayLayers ++
        [⟨MapView.dataUrlOf env p bytes, ((0, 0), (h, w))⟩] := by
  unfold MapView.loadImage MapView.loadImageT
  rw [if_neg (by simp [hne, hch])]
  simp only [hfile, hdec]
  cases hov : s.imageOverlay <;>
    simp [MapView.updateImageOverlay, MapView.clearImageOverlay, hov]

/-- Witness for C5: successful 2x3 load of `a.png` from the initial
state. -/
theorem loadImage_success_bounds_witness :
    (MapView.loadImage envOnlyA "a.png" MapViewState.init).imageOverlay =
      some ⟨MapView.dataUrlOf envOnlyA "a.png" [1], ((0, 0), (3, 2))⟩ ∧
    (MapView.loadImage envOnlyA "a.png" MapViewState.init).fitted =
      some ((0, 0), (3, 2)) ∧
    (MapView.loadImage envOnlyA "a.png" MapViewState.init).overlayLayers =
      (MapView.clearImageOverlay MapViewState.init).overlayLayers ++
        [⟨MapView.dataUrlOf envOnlyA "a.png" [1], ((0, 0), (3, 2))⟩] :=
  loadImage_success_bounds envOnlyA "a.png" MapViewState.init [1] 2 3
    (by decide) (by decide) rfl rfl

/-! ### C6: repeated configuration with an unchanged image path -/

theorem updateImageOverlay_coordinatesProp (s : MapViewState) :
    (MapView.updateImageOverlay s).coordinatesProp = s.coordinatesProp := by
  unfold MapView.updateImageOverlay
  dsimp only
  split <;> simp [clearImageOverlay_coordinatesProp]

theorem updateImageOverlay_localImagePath (s : MapViewState) :
    (MapView.updateImageOverlay s).localImagePath = s.localImagePath := by
  unfold MapView.updateImageOverlay
  dsimp only
  split <;> simp [clearImageOverlay_localImagePath]

theorem loadImageT_coordinatesProp (env : Env) (p : String)
    (s : MapViewState) :
    (MapView.loadImageT env p s).1.coordinatesProp = s.coordinatesProp := by
  unfold MapView.loadImageT
  dsimp only
  split
  · rfl
  · split
    · rfl
    · rfl
    · split
      · rfl
      · simp [updateImageOverlay_coordinatesProp]

theorem loadConfig_coordinatesProp (env : Env) (s : MapViewState) :
    (MapView.loadConfig env s).coordinatesProp = env.config.coordinates := by
  unfold MapView.loadConfig MapView.loadConfigT
  dsimp only
  split
  · split
    · rw [loadImageT_coordinatesProp]
    · simp [clearImageOverlay_coordinatesProp]
  · rfl

/-- The failing branches of `loadImageT` only null the data URL and the
dimensions. -/
theorem loadImageT_fail_fst (env : Env) (p : String) (s : MapViewState)
    (hne : p ≠ "") (hch : p ≠ s.localImagePath)
    (hfail : env.vault p = none ∨ env.vault p = some (.error ()) ∨
      ∃ b, env.vault p = some (.ok b) ∧
        env.decodeImage (MapView.dataUrlOf env p b) = none) :
    (MapView.loadImageT env p s).1 =
      { s with localImageData := none, imageDimensions := none } := by
  unfold MapView.loadImageT
  dsimp only
  rw [if_neg (by simp [hne, hch])]
  rcases hfail with hv | hv | ⟨b, hv, hd⟩
  · simp [hv]
  · simp [hv]
  · simp [hv, hd]

/-- Record eta for the three fields `loadConfig` can touch besides the
overlay. -/
theorem state_eta_cdd (s : MapViewState) (c : Option String)
    (hc : s.coordinatesProp = c) (hd : s.localImageData = none)
    (hm : s.imageDimensions = none) :
    ({ s with coordinatesProp := c, localImageData := none,
              imageDimensions := none } : MapViewState) = s := by
  rw [← hc, ← hd, ← hm]

/-- When the trimmed configured path already equals `localImagePath` (and
the coordinates binding is already loaded), `loadConfig` is the identity and
performs no file read. -/
theorem loadConfig_noop (env : Env) (s : MapViewState)
    (hc : s.coordinatesProp = env.config.coordinates)
    (hp : s.localImagePath = MapView.cfgPath env) :
    MapView.loadConfigT env s = (s, 0) := by
  unfold MapView.loadConfigT
  dsimp only
  rw [if_neg (by simp [hp])]
  rw [← hc]

/-- After any `loadConfig`, either the loaded path equals the configured
path, or the load failed and the state is the input with the coordinates
binding set and data/dimensions nulled — with the failure determined by the
environment alone. -/
theorem loadConfig_outcome (env : Env) (s : MapViewState) :
    (MapView.loadConfig env s).localImagePath = MapView.cfgPath env ∨
    (MapView.loadConfig env s =
      { s with coordinatesProp := env.config.coordinates,
               localImageData := none, imageDimensions := none } ∧
     MapView.cfgPath env ≠ "" ∧
     (env.vault (MapView.cfgPath env) = none ∨
      env.vault (MapView.cfgPath env) = some (.error ()) ∨
      ∃ b, env.vault (MapView.cfgPath env) = some (.ok b) ∧
        env.decodeImage
          (MapView.dataUrlOf env (MapView.cfgPath env) b) = none)) := by
  unfold MapView.loadConfig MapView.loadConfigT
  dsimp only
  split
  case isTrue hch =>
    split
    case isTrue hne =>
      unfold MapView.loadImageT
      dsimp only
      rw [if_neg (by simp at hch ⊢; exact ⟨hne, hch⟩)]
      rcases hv : env.vault (MapView.cfgPath env) with _ | e | b
      · exact Or.inr ⟨by simp, hne, Or.inl rfl⟩
      · exact Or.inr ⟨by simp, hne, Or.inr (Or.inl rfl)⟩
      · rcases hd : env.decodeImage
            (MapView.dataUrlOf env (MapView.cfgPath env) b) with _ | wh
        · exact Or.inr ⟨by simp [hd], hne, Or.inr (Or.inr ⟨b, rfl, hd⟩)⟩
        · obtain ⟨w, h⟩ := wh
          simp only [hd]
          exact Or.inl (by rw [updateImageOverlay_localImagePath])
    case isFalse hne =>
      refine Or.inl ?_
      rw [clearImageOverlay_localImagePath]
      simpa using (not_ne_iff.mp hne).symm
  case isFalse hch =>
    exact Or.inl (by simpa using (not_ne_iff.mp hch).symm)

/-- C6 counterexample: with `bad.png` configured, present in the vault, but
undecodable as an image, configuring twice makes the second `loadConfig`
read the file again (each of the two calls performs one `readBinary`),
contradicting the claim that the second call never re-reads the file. -/
theorem loadConfig_rereads_after_failed_load_cex :
    (MapView.loadConfigT envBadDecode MapViewState.init).2 = 1 ∧
    (MapView.loadConfigT envBadDecode
      (MapView.loadConfigT envBadDecode MapViewState.init).1).2 = 1 :=
  ⟨rfl, rfl⟩

/-- C6 as amended: running `loadConfig` twice with the same configuration
never changes any state on the second call, and when the first call left
`localImagePath` equal to the configured trimmed path (in particular after
any successful load) the second call performs no file read at all; only
when the first load failed does the second call retry, because the
configured path still differs from the last loaded path. -/
theorem loadConfig_idempotent_no_reread (env : Env) (s : MapViewState) :
    MapView.loadConfig env (MapView.loadConfig env s) =
      MapView.loadConfig env s ∧
    ((MapView.loadConfig env s).localImagePath = MapView.cfgPath env →
      (MapView.loadConfigT env (MapView.loadConfig env s)).2 = 0) := by
  have hc1 : (MapView.loadConfig env s).coordinatesProp =
      env.config.coordinates := loadConfig_coordinatesProp env s
  constructor
  · rcases loadConfig_outcome env s with hp | ⟨heq, hne, hfail⟩
    · have hnoop := loadConfig_noop env (MapView.loadConfig env s) hc1 hp
      show (MapView.loadConfigT env (MapView.loadConfig env s)).1 = _
      rw [hnoop]
    · by_cases hp : (MapView.loadConfig env s).localImagePath =
          MapView.cfgPath env
      · have hnoop := loadConfig_noop env (MapView.loadConfig env s) hc1 hp
        show (MapView.loadConfigT env (MapView.loadConfig env s)).1 = _
        rw [hnoop]
      · have hd1 : (MapView.loadConfig env s).localImageData = none := by
          rw [heq]
        have hm1 : (MapView.loadConfig env s).imageDimensions = none := by
          rw [heq]
        show (MapView.loadConfigT env (MapView.loadConfig env s)).1 = _
        unfold MapView.loadConfigT
        dsimp only
        rw [if_pos (by simpa using fun hx => hp hx.symm),
          if_pos (by simpa using hne)]
        rw [loadImageT_fail_fst env (MapView.cfgPath env) _
          hne (by simpa using fun hx => hp hx.symm) hfail]
        exact state_eta_cdd (MapView.loadConfig env s)
          env.config.coordinates hc1 hd1 hm1
  · intro hp
    have hnoop := loadConfig_noop env (MapView.loadConfig env s) hc1 hp
    rw [hnoop]

/-- Witness for the amended C6: an environment with no configured image
path, from the initial state. -/
theorem loadConfig_idempotent_no_reread_witness :
    MapView.loadConfig envNoFiles (MapView.loadConfig envNoFiles
      MapViewState.init) = MapView.loadConfig envNoFiles MapViewState.init ∧
    (MapView.loadConfigT envNoFiles
      (MapView.loadConfig envNoFiles MapViewState.init)).2 = 0 :=
  ⟨(loadConfig_idempotent_no_reread envNoFiles MapViewState.init).1,
    (loadConfig_idempotent_no_reread envNoFiles MapViewState.init).2 rfl⟩
